import Mathlib

/-!
Shallow embedding of the Tegra DVFS core (src/drivers/soc/tegra/tegra-dvfs.c).

Voltages are C `int`, embedded as `Int` (all values of interest are far from
the 32-bit range, so no wraparound modelling is needed); frequencies are C
`unsigned long`, embedded as `Nat`.  The global rail list, the per-rail clock
(`struct dvfs`) lists and the relationship lists are carried in one explicit
state record; C pointer mutation of a rail becomes replacement of the rail
with the matching `reg_id` in the state's rail list.  The mutually recursive
pair `dvfs_rail_update` / `dvfs_rail_set_voltage` is embedded with an explicit
fuel argument that strictly decreases on every recursive call; `fuelExhausted`
is a sentinel distinct from every errno value and is never returned once the
fuel exceeds the actual recursion depth of a scenario.  The regulator
(an external collaborator) is modelled by a success predicate `regWriteOk`
carried in the state, and every `regulator_set_voltage` call is logged in a
write trace.  Wall-clock time (`ktime_get`) is not modelled; the stats
recorder keeps the C `last_index` arithmetic and logs the sequence of
recorded voltages instead of accumulating times.
-/

namespace TegraDvfs

/-- struct dvfs_therm_limits: one {temperature, mv} entry of a thermal
floor/cap table. -/
structure ThermLimit where
  temperature : Int
  mv : Int
deriving DecidableEq, Repr

/-- The voltage-time histogram state of a rail (struct dvfs_rail_stats).
`updates` logs each voltage passed to dvfs_rail_stats_update, standing in for
the wall-clock histogram accumulation which is not modelled. -/
structure RailStats where
  off : Bool
  bin_uv : Int
  last_index : Int
  updates : List Int
deriving DecidableEq, Repr

/-- struct dvfs_rail.  `reg_id` doubles as the rail's identity; `reg : Bool`
models whether a regulator handle is bound (rail->reg != NULL).  The thermal
tables are `Option` lists (NULL pointer = `none`), with the C's separate
size fields kept as they are kept in the source. -/
structure Rail where
  reg_id : Nat
  reg : Bool
  millivolts : Int
  new_millivolts : Int
  min_millivolts : Int
  max_millivolts : Int
  nominal_millivolts : Int
  disable_millivolts : Int
  suspend_millivolts : Int
  override_millivolts : Int
  step : Int
  step_up : Int
  disabled : Bool
  suspended : Bool
  dfll_mode : Bool
  resolving_to : Bool
  jmp_to_zero : Bool
  in_band_pm : Bool
  is_ready : Bool
  therm_floors : Option (List ThermLimit)
  therm_floors_size : Nat
  therm_floor_idx : Nat
  therm_caps : Option (List ThermLimit)
  therm_caps_size : Nat
  therm_cap_idx : Nat
  stats : RailStats
deriving DecidableEq, Repr

/-- struct dvfs_relationship: a directed edge `fromRail → toRail` (the C
fields are `from` and `to`) with its solver function and the
`solved_at_nominal` flag used by the suspend orchestrator. -/
structure Relationship where
  fromRail : Nat
  toRail : Nat
  solve : Rail → Rail → Int
  solved_at_nominal : Bool

/-- struct dvfs: one clock's voltage table.  `clk_name` doubles as the
clock's identity; `railId` is the owning rail's `reg_id` (d->dvfs_rail). -/
structure Dvfs where
  clk_name : Nat
  railId : Nat
  freqs : List Nat
  millivolts : List Int
  dfll_millivolts : Option (List Int)
  alt_freqs : Option (List Nat)
  use_alt_freqs : Bool
  max_millivolts : Int
  num_freqs : Nat
  use_dfll_rate_min : Nat
  cur_rate : Nat
  cur_millivolts : Int
deriving Repr

/-- One logged regulator_set_voltage call: rail, requested millivolts,
whether the hardware write succeeded. -/
structure RegWrite where
  rid : Nat
  mv : Int
  ok : Bool
deriving DecidableEq, Repr

/-- The whole mutable picture of the driver: the global rail list
(dvfs_rail_list order), every rail's clocks, the relationship edges, the
regulator write log, and the regulator's behaviour. -/
structure St where
  rails : List Rail
  clocks : List Dvfs
  rels : List Relationship
  trace : List RegWrite
  regWriteOk : Nat → Int → Bool

/-- Errno values used by the embedded code (returned negated, as in C). -/
def EINVAL : Int := 22

def ENOENT : Int := 2

def EIO_errno : Int := 5

def ENODEV : Int := 19

/-- Sentinel for fuel exhaustion of the embedding; distinct from every
errno and from 0, never produced when the fuel covers the recursion depth. -/
def fuelExhausted : Int := -1000000

/-- Dereference of a rail pointer: the rail with this reg_id in the global
list. -/
def getRail (st : St) (rid : Nat) : Option Rail :=
  st.rails.find? (fun r => r.reg_id == rid)

/-- Field assignment through a rail pointer: replace the rail with this
reg_id by `f` of it. -/
def updRail (st : St) (rid : Nat) (f : Rail → Rail) : St :=
  { st with rails := st.rails.map (fun r => if r.reg_id == rid then f r else r) }

/-- The kernel's DIV_ROUND_UP on the nonnegative operands the driver feeds
it (an absolute difference and a positive step). -/
def DIV_ROUND_UP (n d : Int) : Int :=
  (n + d - 1) / d

/-- C abs() on int. -/
def cAbs (x : Int) : Int :=
  Int.natAbs x

/-- The kernel's clamp_val.  It is a pure expression macro
(min_t/max_t composition): it RETURNS the clamped value and assigns
nothing. -/
def clamp_val (v lo hi : Int) : Int :=
  min (max v lo) hi

/-- DVFS_RAIL_STATS_TOP_BIN.  Modelled from the spec: the histogram constant
lives in the header soc/tegra/tegra-dvfs.h which is not among the sources;
its exact value is immaterial to every claim (it only caps the histogram
index). -/
def DVFS_RAIL_STATS_TOP_BIN : Int := 40

/-- The time-accumulation half of dvfs_rail_stats_update: the ktime
bookkeeping is not modelled, the recorded voltage is logged instead. -/
def statsBump (s : RailStats) (millivolts : Int) : RailStats :=
  { s with updates := s.updates ++ [millivolts] }

/-- dvfs_rail_stats_update (tegra-dvfs.c:129): record the time spent at the
previous voltage (modelled by `statsBump`), then move `last_index` to the
new voltage's histogram bin, with the bin arithmetic kept as written. -/
def dvfs_rail_stats_update (rail : Rail) (millivolts : Int) : Rail :=
  { rail with stats :=
      if rail.stats.off then statsBump rail.stats millivolts
      else if millivolts ≥ rail.min_millivolts then
        { statsBump rail.stats millivolts with
            last_index :=
              min (1 + (2 * (millivolts - rail.min_millivolts) * 1000 +
                    rail.stats.bin_uv) / (2 * rail.stats.bin_uv))
                DVFS_RAIL_STATS_TOP_BIN }
      else if millivolts == 0 then
        { statsBump rail.stats millivolts with last_index := 0 }
      else statsBump rail.stats millivolts }

/-- dvfs_rail_set_voltage_reg (tegra-dvfs.c:148): one regulator write,
logged in the trace; failure is reported as -EIO_errno. -/
def dvfs_rail_set_voltage_reg (st : St) (rid : Nat) (millivolts : Int) :
    Int × St :=
  let ok := st.regWriteOk rid millivolts
  ((if ok then 0 else -EIO_errno),
   { st with trace := st.trace ++ [⟨rid, millivolts, ok⟩] })

/-- dvfs_rail_apply_limits (tegra-dvfs.c:265).  Translated exactly as
written: the C statement `clamp_val(millivolts, min_mv, max_mv);` calls a
pure expression macro and discards its result, so the computed bounds never
reach the returned value. -/
def dvfs_rail_apply_limits (rail : Rail) (millivolts0 : Int) : Int :=
  let min_mv :=
    match rail.therm_floors with
    | some fl =>
        if rail.therm_floor_idx < rail.therm_floors_size then
          (fl.getD rail.therm_floor_idx ⟨0, 0⟩).mv
        else rail.min_millivolts
    | none => rail.min_millivolts
  let max_mv :=
    match rail.therm_caps with
    | some cp =>
        if rail.therm_cap_idx > 0 then
          (cp.getD (rail.therm_cap_idx - 1) ⟨0, 0⟩).mv
        else rail.max_millivolts
    | none => rail.max_millivolts
  let millivolts :=
    if rail.override_millivolts ≠ 0 then rail.override_millivolts else millivolts0
  let _ := clamp_val millivolts min_mv max_mv
  millivolts

/-- The same limits as the specification words them ("clamp demand into
[floor, cap] ∩ [min, max]; an explicit override value, if set, replaces the
computed demand entirely"): the clamped value is actually used.  Stated for
comparison with `dvfs_rail_apply_limits` above. -/
def dvfs_rail_apply_limits_spec (rail : Rail) (millivolts0 : Int) : Int :=
  let min_mv :=
    match rail.therm_floors with
    | some fl =>
        if rail.therm_floor_idx < rail.therm_floors_size then
          (fl.getD rail.therm_floor_idx ⟨0, 0⟩).mv
        else rail.min_millivolts
    | none => rail.min_millivolts
  let max_mv :=
    match rail.therm_caps with
    | some cp =>
        if rail.therm_cap_idx > 0 then
          (cp.getD (rail.therm_cap_idx - 1) ⟨0, 0⟩).mv
        else rail.max_millivolts
    | none => rail.max_millivolts
  let millivolts :=
    if rail.override_millivolts ≠ 0 then rail.override_millivolts else millivolts0
  clamp_val millivolts min_mv max_mv

/-- dvfs_solve_relationship (tegra-dvfs.c:100): rel->solve(rel->from,
rel->to) on the current rail values. -/
def dvfs_solve_relationship (st : St) (rel : Relationship) : Int :=
  match getRail st rel.fromRail, getRail st rel.toRail with
  | some f, some t => rel.solve f t
  | _, _ => 0

/-- The incoming edges of a rail (rail->relationships_from), in
registration order. -/
def incomingRels (st : St) (rid : Nat) : List Relationship :=
  st.rels.filter (fun rel => rel.toRail == rid)

/-- The rails that depend on this rail (rail->relationships_to), in
registration order. -/
def outgoingIds (st : St) (rid : Nat) : List Nat :=
  (st.rels.filter (fun rel => rel.fromRail == rid)).map (fun rel => rel.toRail)

/-- The body of the solver fold inside dvfs_rail_update's retry loop:
`rail->new_millivolts = dvfs_solve_relationship(rel)` for each incoming
edge, in list order, each solver seeing the state the previous one left. -/
def applySolvers (st : St) (rid : Nat) : List Relationship → St
  | [] => st
  | rel :: rest =>
      let v := dvfs_solve_relationship st rel
      applySolvers (updRail st rid (fun r => { r with new_millivolts := v })) rid rest

/-- The maximum voltage requested by any clock on the rail (the
list_for_each_entry fold at tegra-dvfs.c:327), zero when none. -/
def railClockDemand (st : St) (rid : Nat) : Int :=
  (st.clocks.filter (fun d => d.railId == rid)).foldl
    (fun acc d => max d.cur_millivolts acc) 0

/-- The five mutually recursive pieces of the resolve/ramp engine, indexed
by fuel: `update` is dvfs_rail_update, `loop` its retry loop, `sv` is
dvfs_rail_set_voltage, `svSteps` its stepping loop, `prop` the propagation
fold over dependent rails.  Packaging one fuel level as a record makes the
recursion structural in the fuel alone, so the kernel can evaluate the
engine on concrete states. -/
structure Engine where
  update : St → Nat → Int × St
  loop : St → Nat → Int → Nat → Int → Int × St × Nat
  sv : St → Nat → Int → Int × St
  svSteps : St → Nat → Int → Bool → Int → Int → Nat → Int × St
  prop : St → List Nat → Int × St

/-- One fuel level of the engine.  Each function is translated line by line
from tegra-dvfs.c (see the named wrappers below for the source positions);
every recursive call goes through the previous fuel level. -/
def engine : Nat → Engine
  | 0 =>
    { update := fun st _ => (fuelExhausted, st)
      loop := fun st _ _ _ _ => (fuelExhausted, st, 0)
      sv := fun st _ _ => (fuelExhausted, st)
      svSteps := fun st _ _ _ _ _ _ => (fuelExhausted, st)
      prop := fun st ids =>
        match ids with
        | [] => (0, st)
        | _ :: _ => (fuelExhausted, st) }
  | fuel + 1 =>
    { update := fun st rid =>
        match getRail st rid with
        | none => (0, st)
        | some rail =>
          if rail.disabled then (0, st)
          else if rail.suspended then (0, st)
          else if !rail.reg then (0, st)
          else if rail.resolving_to then (0, st)
          else
            let demand := railClockDemand st rid
            let target : Option Int :=
              if demand ≠ 0 then some (dvfs_rail_apply_limits rail demand)
              else if rail.in_band_pm then none
              else if !rail.jmp_to_zero then none
              else some 0
            match target with
            | none => (0, st)
            | some millivolts =>
              let steps :=
                (DIV_ROUND_UP (cAbs (millivolts - rail.millivolts))
                  rail.step).toNat
              let out := (engine fuel).loop st rid millivolts steps 0
              (out.1, out.2.1)
      loop := fun st rid millivolts steps ret0 =>
        let st1 := updRail st rid (fun r => { r with new_millivolts := millivolts })
        let st2 := applySolvers st1 rid (incomingRels st1 rid)
        match getRail st2 rid with
        | none => (ret0, st2, 1)
        | some rail =>
          if rail.new_millivolts == rail.millivolts then (ret0, st2, 1)
          else
            let sv := (engine fuel).sv st2 rid rail.new_millivolts
            match steps with
            | 0 => (sv.1, sv.2, 1)
            | steps + 1 =>
              let out := (engine fuel).loop sv.2 rid millivolts steps sv.1
              (out.1, out.2.1, out.2.2 + 1)
      sv := fun st rid millivolts =>
        match getRail st rid with
        | none => (0, st)
        | some rail =>
          if !rail.reg then
            (if millivolts == rail.millivolts then 0 else -EINVAL, st)
          else
            let step :=
              if millivolts > rail.millivolts then rail.step_up else rail.step
            let offset :=
              if millivolts > rail.millivolts then rail.step_up else -rail.step
            if rail.dfll_mode then
              (0, updRail st rid (fun r =>
                dvfs_rail_stats_update
                  { r with millivolts := millivolts, new_millivolts := millivolts }
                  millivolts))
            else if rail.disabled then (0, st)
            else
              let st1 := updRail st rid (fun r => { r with resolving_to := true })
              let jmp := rail.jmp_to_zero &&
                (millivolts == 0 || rail.millivolts == 0)
              let steps : Nat :=
                if jmp || (rail.in_band_pm && rail.stats.off) then 1
                else (DIV_ROUND_UP (cAbs (millivolts - rail.millivolts)) step).toNat
              let out := (engine fuel).svSteps st1 rid millivolts jmp step offset steps
              let ret2 :=
                if out.1 == 0 then
                  match getRail out.2 rid with
                  | some r2 => if r2.millivolts ≠ millivolts then -EINVAL else out.1
                  | none => out.1
                else out.1
              (ret2, updRail out.2 rid (fun r => { r with resolving_to := false }))
      svSteps := fun st rid millivolts jmp step offset remaining =>
        match remaining with
        | 0 => (0, st)
        | remaining + 1 =>
          match getRail st rid with
          | none => (0, st)
          | some rail =>
            let newMv :=
              if !jmp && cAbs (millivolts - rail.millivolts) > step then
                rail.millivolts + offset
              else millivolts
            let st1 := updRail st rid (fun r => { r with new_millivolts := newMv })
            let pre := (engine fuel).prop st1 (outgoingIds st1 rid)
            if pre.1 ≠ 0 then pre
            else
              let wr := dvfs_rail_set_voltage_reg pre.2 rid newMv
              if wr.1 ≠ 0 then wr
              else
                let st4 := updRail wr.2 rid (fun r =>
                  dvfs_rail_stats_update { r with millivolts := r.new_millivolts }
                    r.new_millivolts)
                let post := (engine fuel).prop st4 (outgoingIds st4 rid)
                if post.1 ≠ 0 then post
                else (engine fuel).svSteps post.2 rid millivolts jmp step offset remaining
      prop := fun st ids =>
        match ids with
        | [] => (0, st)
        | rid :: rest =>
          let upd := (engine fuel).update st rid
          if upd.1 ≠ 0 then upd
          else (engine fuel).prop upd.2 rest }

/-- dvfs_rail_update (tegra-dvfs.c:302): the rail update resolver. -/
def dvfs_rail_update (fuel : Nat) (st : St) (rid : Nat) : Int × St :=
  (engine fuel).update st rid

/-- The retry loop of dvfs_rail_update (tegra-dvfs.c:347,
`for (; steps >= 0; steps--)`), entered with its counter and the ret value
carried across iterations.  The third component counts how many times the
loop body ran. -/
def rail_update_loop (fuel : Nat) (st : St) (rid : Nat) (millivolts : Int)
    (steps : Nat) (ret0 : Int) : Int × St × Nat :=
  (engine fuel).loop st rid millivolts steps ret0

/-- dvfs_rail_set_voltage (tegra-dvfs.c:168): the voltage ramp engine. -/
def dvfs_rail_set_voltage (fuel : Nat) (st : St) (rid : Nat)
    (millivolts : Int) : Int × St :=
  (engine fuel).sv st rid millivolts

/-- The stepping loop of dvfs_rail_set_voltage (tegra-dvfs.c:210,
`for (i = 0; i < steps; i++)`): any error jumps straight out (C goto out),
which the caller recognises by a nonzero return. -/
def sv_steps (fuel : Nat) (st : St) (rid : Nat) (millivolts : Int)
    (jmp : Bool) (step offset : Int) (remaining : Nat) : Int × St :=
  (engine fuel).svSteps st rid millivolts jmp step offset remaining

/-- The propagation fold of dvfs_rail_set_voltage (tegra-dvfs.c:225 and
:247): update every dependent rail, stopping at the first error. -/
def propagate (fuel : Nat) (st : St) (ids : List Nat) : Int × St :=
  (engine fuel).prop st ids

/-- tegra_dvfs_rail_get_suspend_level (tegra-dvfs.c:42):
`rail->suspend_millivolts ? : rail->nominal_millivolts`. -/
def tegra_dvfs_rail_get_suspend_level (rail : Rail) : Int :=
  if rail.suspend_millivolts ≠ 0 then rail.suspend_millivolts
  else rail.nominal_millivolts

/-- tegra_dvfs_rail_get_disable_level (tegra-dvfs.c:37). -/
def tegra_dvfs_rail_get_disable_level (rail : Rail) : Int :=
  if rail.disable_millivolts ≠ 0 then rail.disable_millivolts
  else rail.nominal_millivolts

/-- tegra_clk_to_dvfs (tegra-dvfs.c:478): the clock's dvfs entry.  The C
walks every rail's dvfs list; the flattened clock list is searched by the
clock identity, which is unique. -/
def tegra_clk_to_dvfs (st : St) (clkId : Nat) : Option Dvfs :=
  st.clocks.find? (fun d => d.clk_name == clkId)

/-- Replace a clock entry (pointer mutation of a struct dvfs). -/
def updClock (st : St) (clkId : Nat) (f : Dvfs → Dvfs) : St :=
  { st with clocks := st.clocks.map (fun d => if d.clk_name == clkId then f d else d) }

/-- dvfs_get_freqs (tegra-dvfs.c:420): the active frequency table; the
alternate table pointer may be NULL, which the caller checks. -/
def dvfs_get_freqs (d : Dvfs) : Option (List Nat) :=
  if d.use_alt_freqs then d.alt_freqs else some d.freqs

/-- Modelled from the spec: tegra_dvfs_is_dfll_scale lives in the header
soc/tegra/tegra-dvfs.h, which is not among the sources.  The specification
describes no continuous-control (dfll) table selection for the voltage
lookup, so the predicate is modelled as never holding. -/
def tegra_dvfs_is_dfll_scale (_d : Dvfs) (_rate : Nat) : Bool :=
  false

/-- Modelled from the spec: tegra_dvfs_is_dfll_range_entry lives in the
header soc/tegra/tegra-dvfs.h, which is not among the sources.  The
specification's table lookup (§4.1) has no rate substitution on entry to a
continuous-control range, so the predicate is modelled as never holding. -/
def tegra_dvfs_is_dfll_range_entry (_d : Dvfs) (_rate : Nat) : Bool :=
  false

/-- dvfs_get_millivolts (tegra-dvfs.c:412): dfll table when dfll scaling is
active, else the main table (the dfll table pointer may be NULL). -/
def dvfs_get_millivolts (d : Dvfs) (rate : Nat) : Option (List Int) :=
  if tegra_dvfs_is_dfll_scale d rate then d.dfll_millivolts
  else some d.millivolts

/-- The index scan of __tegra_dvfs_set_rate (tegra-dvfs.c:454):
`while (i < d->num_freqs && rate > freqs[i]) i++`. -/
def freqIndexScan (freqs : List Nat) (numFreqs : Nat) (rate : Nat) : Nat :=
  go 0 numFreqs
where
  go (i : Nat) : Nat → Nat
    | 0 => i
    | budget + 1 =>
      if i < numFreqs && rate > freqs.getD i 0 then go (i + 1) budget
      else i

/-- __tegra_dvfs_set_rate (tegra-dvfs.c:428), looked up by clock identity
(its C caller passes the struct dvfs pointer; a missing clock is the
caller's no-op). -/
def __tegra_dvfs_set_rate (fuel : Nat) (st : St) (clkId : Nat) (rate0 : Nat) :
    Int × St :=
  match tegra_clk_to_dvfs st clkId with
  | none => (0, st)
  | some d =>
    match dvfs_get_freqs d, dvfs_get_millivolts d rate0 with
    | none, _ => (-ENODEV, st)
    | _, none => (-ENODEV, st)
    | some freqs, some millivolts =>
      let rate :=
        if tegra_dvfs_is_dfll_range_entry d rate0 then d.use_dfll_rate_min
        else rate0
      if rate > freqs.getD (d.num_freqs - 1) 0 then (-EINVAL, st)
      else
        let i := freqIndexScan freqs d.num_freqs rate
        if rate ≠ 0 && (d.max_millivolts ≠ 0 &&
            millivolts.getD i 0 > d.max_millivolts) then
          (-EINVAL, st)
        else
          let newCurMv := if rate == 0 then 0 else millivolts.getD i 0
          let st1 := updClock st clkId (fun c =>
            { c with cur_millivolts := newCurMv, cur_rate := rate })
          dvfs_rail_update fuel st1 d.railId

/-- tegra_dvfs_use_alt_freqs_on_clk (tegra-dvfs.c:730).  The guard in the
source is `if (!d && d->alt_freqs)`: when the clock has no dvfs entry,
`!d` holds and `d->alt_freqs` dereferences a NULL pointer (modelled as
`none`); when it has one, `!d` is false, the conjunction short-circuits,
the whole swap block is skipped and the initial -ENOENT is returned. -/
def tegra_dvfs_use_alt_freqs_on_clk (_fuel : Nat) (st : St) (clkId : Nat)
    (_use_alt_freq : Bool) : Option (Int × St) :=
  match tegra_clk_to_dvfs st clkId with
  | none => none
  | some _ => some (-ENOENT, st)

/-- The thermal constraint kinds of the external interface. -/
inductive ThermalType where
  | floor
  | cap
deriving DecidableEq, Repr

/-- tegra_dvfs_core_update_thermal_index (tegra-dvfs.c:1171).  The core
rail (the global tegra_core_rail, possibly NULL) is passed as an optional
rail id. -/
def tegra_dvfs_core_update_thermal_index (fuel : Nat) (st : St)
    (coreRid : Option Nat) (ty : ThermalType) (newIdx : Nat) : Int × St :=
  match coreRid with
  | none => (-EINVAL, st)
  | some rid =>
    match getRail st rid with
    | none => (-EINVAL, st)
    | some rail =>
      if !rail.is_ready then (-EINVAL, st)
      else
        match ty with
        | .floor =>
          if rail.therm_floor_idx ≠ newIdx then
            let st1 := updRail st rid (fun r => { r with therm_floor_idx := newIdx })
            let (_, st2) := dvfs_rail_update fuel st1 rid
            (0, st2)
          else (0, st)
        | .cap =>
          if rail.therm_cap_idx ≠ newIdx then
            let st1 := updRail st rid (fun r => { r with therm_cap_idx := newIdx })
            let (_, st2) := dvfs_rail_update fuel st1 rid
            (0, st2)
          else (0, st)

/-- tegra_dvfs_all_rails_suspended (tegra-dvfs.c:851). -/
def tegra_dvfs_all_rails_suspended (st : St) : Bool :=
  st.rails.all (fun r => r.suspended || r.disabled)

/-- tegra_dvfs_from_rails_suspended_or_solved (tegra-dvfs.c:862): every
incoming edge's source rail is suspended, disabled, or flagged
solved-at-nominal. -/
def tegra_dvfs_from_rails_suspended_or_solved (st : St) (rid : Nat) : Bool :=
  (incomingRels st rid).all (fun rel =>
    match getRail st rel.fromRail with
    | some f => f.suspended || f.disabled || rel.solved_at_nominal
    | none => true)

/-- The rail-list scan of tegra_dvfs_suspend_one (tegra-dvfs.c:875): skip
rails already suspended or disabled or with a live incoming dependency;
suspend the first eligible one (ramping only when the thermally limited
suspend level is at or above the current voltage); -EINVAL when none is
eligible. -/
def tegra_dvfs_suspend_one_scan (fuel : Nat) (st : St) : List Nat → Int × St
  | [] => (-EINVAL, st)
  | rid :: rest =>
    match getRail st rid with
    | none => tegra_dvfs_suspend_one_scan fuel st rest
    | some rail =>
      if rail.suspended || rail.disabled ||
          !tegra_dvfs_from_rails_suspended_or_solved st rid then
        tegra_dvfs_suspend_one_scan fuel st rest
      else
        let mv := dvfs_rail_apply_limits rail (tegra_dvfs_rail_get_suspend_level rail)
        let sv :=
          if mv ≥ rail.millivolts then dvfs_rail_set_voltage fuel st rid mv
          else (0, st)
        if sv.1 ≠ 0 then sv
        else (0, updRail sv.2 rid (fun r => { r with suspended := true }))

/-- tegra_dvfs_suspend_one (tegra-dvfs.c:875). -/
def tegra_dvfs_suspend_one (fuel : Nat) (st : St) : Int × St :=
  tegra_dvfs_suspend_one_scan fuel st (st.rails.map (fun r => r.reg_id))

/-- tegra_dvfs_resume (tegra-dvfs.c:904): clear every suspended flag, then
update every rail in list order (return values are dropped, as in C). -/
def tegra_dvfs_resume (fuel : Nat) (st : St) : St :=
  let st1 := { st with rails := st.rails.map (fun r => { r with suspended := false }) }
  go st1 (st1.rails.map (fun r => r.reg_id))
where
  go (st : St) : List Nat → St
    | [] => st
    | rid :: rest => go (dvfs_rail_update fuel st rid).2 rest

/-- The `while (!tegra_dvfs_all_rails_suspended())` loop of
tegra_dvfs_suspend (tegra-dvfs.c:925). -/
def tegra_dvfs_suspend_loop (fuel : Nat) (st : St) : Int × St :=
  match fuel with
  | 0 => (fuelExhausted, st)
  | fuel + 1 =>
    if tegra_dvfs_all_rails_suspended st then (0, st)
    else
      let one := tegra_dvfs_suspend_one fuel st
      if one.1 ≠ 0 then one
      else tegra_dvfs_suspend_loop fuel one.2

/-- tegra_dvfs_suspend (tegra-dvfs.c:919): suspend rails one at a time in
dependency order; on failure, roll everything back through
tegra_dvfs_resume and report the error. -/
def tegra_dvfs_suspend (fuel : Nat) (st : St) : Int × St :=
  let lo := tegra_dvfs_suspend_loop fuel st
  if lo.1 ≠ 0 then (lo.1, tegra_dvfs_resume fuel lo.2)
  else (0, lo.2)

/-! Concrete scenario states used by the claim theorems.  `baseRail` is an
ordinary operating rail (regulator bound, every mode flag off, no thermal
tables); each scenario overrides the fields it is about. -/

/-- A plain operating rail with the given identity and current voltage. -/
def baseRail (rid : Nat) (mv : Int) : Rail :=
  { reg_id := rid
    reg := true
    millivolts := mv
    new_millivolts := mv
    min_millivolts := 800
    max_millivolts := 1100
    nominal_millivolts := 1000
    disable_millivolts := 0
    suspend_millivolts := 0
    override_millivolts := 0
    step := 100
    step_up := 100
    disabled := false
    suspended := false
    dfll_mode := false
    resolving_to := false
    jmp_to_zero := false
    in_band_pm := false
    is_ready := true
    therm_floors := none
    therm_floors_size := 0
    therm_floor_idx := 0
    therm_caps := none
    therm_caps_size := 0
    therm_cap_idx := 0
    stats := { off := false, bin_uv := 12500, last_index := 0, updates := [] } }

/-- A clock requesting `mv` on rail `rid`. -/
def baseClock (cid rid : Nat) (mv : Int) : Dvfs :=
  { clk_name := cid
    railId := rid
    freqs := [100, 200, 300]
    millivolts := [700, 850, 1000]
    dfll_millivolts := none
    alt_freqs := none
    use_alt_freqs := false
    max_millivolts := 0
    num_freqs := 3
    use_dfll_rate_min := 0
    cur_rate := 100
    cur_millivolts := mv }

/-- A state holding the given rails, clocks and edges, with a regulator
that accepts every write. -/
def mkSt (rails : List Rail) (clocks : List Dvfs) (rels : List Relationship) : St :=
  { rails := rails, clocks := clocks, rels := rels, trace := [],
    regWriteOk := fun _ _ => true }

/-- C1 scenario: one rail at 900 mV, bounds [800, 1100], no thermal tables,
whose only clock demands 700 mV (below the static minimum). -/
def stC1 : St := mkSt [baseRail 0 900] [baseClock 10 0 700] []

/-- C2 scenario rail: at 850 mV with a two-entry thermal floor table
(900 mV below 50 degrees, 950 mV above 70 degrees), floor index 0. -/
def railC2 : Rail :=
  { baseRail 0 850 with
      therm_floors := some [⟨50, 900⟩, ⟨70, 950⟩]
      therm_floors_size := 2
      therm_floor_idx := 0 }

/-- C2 scenario: the core rail above with one clock demanding 850 mV. -/
def stC2 : St := mkSt [railC2] [baseClock 10 0 850] []

/-- C3 scenario: a rail at 800 mV with step-up 50 mV, no edges. -/
def stC3 : St := mkSt [{ baseRail 0 800 with step_up := 50 }] [] []

/-- C5 scenario clock: has an alternate frequency table. -/
def clkC5 : Dvfs := { baseClock 10 0 850 with alt_freqs := some [150, 250, 350] }

/-- C5 scenario: one rail with the alternate-table clock. -/
def stC5 : St := mkSt [baseRail 0 850] [clkC5] []

/-- C6 rollback scenario: rail 0 independent, rails 1 and 2 in a
dependency cycle, all resolved at their clock demands; suspend level
1000 mV, single-step ramps. -/
def stC6 : St :=
  mkSt
    [{ baseRail 0 850 with suspend_millivolts := 1000, step := 1000, step_up := 1000 },
     { baseRail 1 900 with suspend_millivolts := 1000, step := 1000, step_up := 1000 },
     { baseRail 2 950 with suspend_millivolts := 1000, step := 1000, step_up := 1000 }]
    [baseClock 10 0 850, baseClock 11 1 900, baseClock 12 2 950]
    [⟨1, 2, fun _ t => t.new_millivolts, false⟩,
     ⟨2, 1, fun _ t => t.new_millivolts, false⟩]

/-- C6 ordering scenario: a two-rail chain, rail 1 (B) depends on rail 0
(A); the rail list deliberately names B first, so only the eligibility
scan can put A's suspension before B's. -/
def stC6chain : St :=
  mkSt
    [{ baseRail 1 900 with suspend_millivolts := 1000, step := 1000, step_up := 1000 },
     { baseRail 0 850 with suspend_millivolts := 1000, step := 1000, step_up := 1000 }]
    [baseClock 10 0 850, baseClock 11 1 900]
    [⟨0, 1, fun _ t => t.new_millivolts, false⟩]

/-- C7 scenario: a continuous-control-mode (dfll) rail with a regulator,
at 800 mV. -/
def stC7 : St := mkSt [{ baseRail 0 800 with dfll_mode := true }] [] []

/-- C7 counterexample scenario: the same rail with no regulator bound. -/
def stC7no : St :=
  mkSt [{ baseRail 0 800 with dfll_mode := true, reg := false }] [] []

/-- C8 scenario: ramp with step-up 50 mV whose regulator rejects every
write at or above 950 mV. -/
def stC8 : St :=
  { mkSt [{ baseRail 0 800 with step_up := 50 }] [] [] with
      regWriteOk := fun _ mv => decide (mv < 950) }

/-- C9 scenario: one rail with one clock whose table tops out at rate 300. -/
def stC9 : St := mkSt [baseRail 0 850] [baseClock 10 0 850] []

/-- C10 scenario rail: jump-to-zero allowed, not under in-band power
management, static minimum 800 mV and an active 900 mV thermal floor. -/
def railC10 : Rail :=
  { baseRail 0 850 with
      jmp_to_zero := true
      therm_floors := some [⟨50, 900⟩]
      therm_floors_size := 1
      therm_floor_idx := 0 }

/-- C10 scenario: the rail above with its only clock idle (demand 0). -/
def stC10 : St := mkSt [railC10] [baseClock 10 0 0] []

/-! Unfolding equations of the engine wrappers: each is definitional
(`rfl`) and restates one fuel level of the corresponding source function,
with the recursive calls written through the named wrappers. -/

theorem dvfs_rail_update_zero (st : St) (rid : Nat) :
    dvfs_rail_update 0 st rid = (fuelExhausted, st) :=
  rfl

theorem dvfs_rail_update_succ (fuel : Nat) (st : St) (rid : Nat) :
    dvfs_rail_update (fuel + 1) st rid =
      (match getRail st rid with
       | none => (0, st)
       | some rail =>
         if rail.disabled then (0, st)
         else if rail.suspended then (0, st)
         else if !rail.reg then (0, st)
         else if rail.resolving_to then (0, st)
         else
           let demand := railClockDemand st rid
           let target : Option Int :=
             if demand ≠ 0 then some (dvfs_rail_apply_limits rail demand)
             else if rail.in_band_pm then none
             else if !rail.jmp_to_zero then none
             else some 0
           match target with
           | none => (0, st)
           | some millivolts =>
             let steps :=
               (DIV_ROUND_UP (cAbs (millivolts - rail.millivolts))
                 rail.step).toNat
             let out := rail_update_loop fuel st rid millivolts steps 0
             (out.1, out.2.1)) :=
  rfl

theorem rail_update_loop_zero (st : St) (rid : Nat) (millivolts : Int)
    (steps : Nat) (ret0 : Int) :
    rail_update_loop 0 st rid millivolts steps ret0 = (fuelExhausted, st, 0) :=
  rfl

theorem rail_update_loop_succ (fuel : Nat) (st : St) (rid : Nat)
    (millivolts : Int) (steps : Nat) (ret0 : Int) :
    rail_update_loop (fuel + 1) st rid millivolts steps ret0 =
      (let st1 := updRail st rid (fun r => { r with new_millivolts := millivolts })
       let st2 := applySolvers st1 rid (incomingRels st1 rid)
       match getRail st2 rid with
       | none => (ret0, st2, 1)
       | some rail =>
         if rail.new_millivolts == rail.millivolts then (ret0, st2, 1)
         else
           let sv := dvfs_rail_set_voltage fuel st2 rid rail.new_millivolts
           match steps with
           | 0 => (sv.1, sv.2, 1)
           | steps + 1 =>
             let out := rail_update_loop fuel sv.2 rid millivolts steps sv.1
             (out.1, out.2.1, out.2.2 + 1)) :=
  rfl

theorem dvfs_rail_set_voltage_zero (st : St) (rid : Nat) (millivolts : Int) :
    dvfs_rail_set_voltage 0 st rid millivolts = (fuelExhausted, st) :=
  rfl

theorem dvfs_rail_set_voltage_succ (fuel : Nat) (st : St) (rid : Nat)
    (millivolts : Int) :
    dvfs_rail_set_voltage (fuel + 1) st rid millivolts =
      (match getRail st rid with
       | none => (0, st)
       | some rail =>
         if !rail.reg then
           (if millivolts == rail.millivolts then 0 else -EINVAL, st)
         else
           let step :=
             if millivolts > rail.millivolts then rail.step_up else rail.step
           let offset :=
             if millivolts > rail.millivolts then rail.step_up else -rail.step
           if rail.dfll_mode then
             (0, updRail st rid (fun r =>
               dvfs_rail_stats_update
                 { r with millivolts := millivolts, new_millivolts := millivolts }
                 millivolts))
           else if rail.disabled then (0, st)
           else
             let st1 := updRail st rid (fun r => { r with resolving_to := true })
             let jmp := rail.jmp_to_zero &&
               (millivolts == 0 || rail.millivolts == 0)
             let steps : Nat :=
               if jmp || (rail.in_band_pm && rail.stats.off) then 1
               else (DIV_ROUND_UP (cAbs (millivolts - rail.millivolts)) step).toNat
             let out := sv_steps fuel st1 rid millivolts jmp step offset steps
             let ret2 :=
               if out.1 == 0 then
                 match getRail out.2 rid with
                 | some r2 => if r2.millivolts ≠ millivolts then -EINVAL else out.1
                 | none => out.1
               else out.1
             (ret2, updRail out.2 rid (fun r => { r with resolving_to := false }))) :=
  rfl

theorem sv_steps_zero (st : St) (rid : Nat) (millivolts : Int) (jmp : Bool)
    (step offset : Int) (remaining : Nat) :
    sv_steps 0 st rid millivolts jmp step offset remaining =
      (fuelExhausted, st) :=
  rfl

theorem sv_steps_succ_zero (fuel : Nat) (st : St) (rid : Nat)
    (millivolts : Int) (jmp : Bool) (step offset : Int) :
    sv_steps (fuel + 1) st rid millivolts jmp step offset 0 = (0, st) :=
  rfl

theorem sv_steps_succ_succ (fuel : Nat) (st : St) (rid : Nat)
    (millivolts : Int) (jmp : Bool) (step offset : Int) (remaining : Nat) :
    sv_steps (fuel + 1) st rid millivolts jmp step offset (remaining + 1) =
      (match getRail st rid with
       | none => (0, st)
       | some rail =>
         let newMv :=
           if !jmp && cAbs (millivolts - rail.millivolts) > step then
             rail.millivolts + offset
           else millivolts
         let st1 := updRail st rid (fun r => { r with new_millivolts := newMv })
         let pre := propagate fuel st1 (outgoingIds st1 rid)
         if pre.1 ≠ 0 then pre
         else
           let wr := dvfs_rail_set_voltage_reg pre.2 rid newMv
           if wr.1 ≠ 0 then wr
           else
             let st4 := updRail wr.2 rid (fun r =>
               dvfs_rail_stats_update { r with millivolts := r.new_millivolts }
                 r.new_millivolts)
             let post := propagate fuel st4 (outgoingIds st4 rid)
             if post.1 ≠ 0 then post
             else sv_steps fuel post.2 rid millivolts jmp step offset remaining) :=
  rfl

theorem propagate_zero_nil (st : St) : propagate 0 st [] = (0, st) :=
  rfl

theorem propagate_zero_cons (st : St) (rid : Nat) (rest : List Nat) :
    propagate 0 st (rid :: rest) = (fuelExhausted, st) :=
  rfl

theorem propagate_succ_nil (fuel : Nat) (st : St) :
    propagate (fuel + 1) st [] = (0, st) :=
  rfl

theorem propagate_succ_cons (fuel : Nat) (st : St) (rid : Nat)
    (rest : List Nat) :
    propagate (fuel + 1) st (rid :: rest) =
      (let upd := dvfs_rail_update fuel st rid
       if upd.1 ≠ 0 then upd
       else propagate fuel upd.2 rest) :=
  rfl

/-- The fields of a rail that the resolve/ramp engine never writes:
identity, suspended, disabled. -/
def railCore (r : Rail) : Nat × Bool × Bool :=
  (r.reg_id, r.suspended, r.disabled)

/-- What a resolve/ramp call preserves of the state: the edge set, the
clock entries, and every rail's identity/suspended/disabled fields. -/
def Frame (st st' : St) : Prop :=
  st'.rels = st.rels ∧ st'.clocks = st.clocks ∧
    st'.rails.map railCore = st.rails.map railCore

theorem frame_refl (st : St) : Frame st st :=
  ⟨rfl, rfl, rfl⟩

theorem frame_trans {a b c : St} (h1 : Frame a b) (h2 : Frame b c) :
    Frame a c :=
  ⟨h2.1.trans h1.1, h2.2.1.trans h1.2.1, h2.2.2.trans h1.2.2⟩

theorem dvfs_rail_stats_update_core (r : Rail) (mv : Int) :
    railCore (dvfs_rail_stats_update r mv) = railCore r :=
  rfl

theorem dvfs_rail_stats_update_reg_id (r : Rail) (mv : Int) :
    (dvfs_rail_stats_update r mv).reg_id = r.reg_id :=
  rfl

theorem dvfs_rail_stats_update_millivolts (r : Rail) (mv : Int) :
    (dvfs_rail_stats_update r mv).millivolts = r.millivolts :=
  rfl

theorem dvfs_rail_stats_update_resolving_to (r : Rail) (mv : Int) :
    (dvfs_rail_stats_update r mv).resolving_to = r.resolving_to :=
  rfl

theorem dvfs_rail_stats_update_updates (r : Rail) (mv : Int) :
    (dvfs_rail_stats_update r mv).stats.updates = r.stats.updates ++ [mv] := by
  unfold dvfs_rail_stats_update statsBump
  repeat' split
  all_goals rfl

theorem map_railCore_updList (l : List Rail) (rid : Nat) (f : Rail → Rail)
    (h : ∀ r, railCore (f r) = railCore r) :
    (l.map (fun r => if r.reg_id == rid then f r else r)).map railCore =
      l.map railCore := by
  induction l with
  | nil => rfl
  | cons a t ih =>
    simp only [List.map_cons]
    refine congrArg₂ List.cons ?_ ih
    by_cases ha : a.reg_id == rid
    · rw [if_pos ha]
      exact h a
    · rw [if_neg ha]

theorem frame_updRail (st : St) (rid : Nat) (f : Rail → Rail)
    (h : ∀ r, railCore (f r) = railCore r) :
    Frame st (updRail st rid f) :=
  ⟨rfl, rfl, map_railCore_updList st.rails rid f h⟩

theorem frame_set_voltage_reg (st : St) (rid : Nat) (mv : Int) :
    Frame st (dvfs_rail_set_voltage_reg st rid mv).2 :=
  ⟨rfl, rfl, rfl⟩

theorem frame_applySolvers (st : St) (rid : Nat) (rels : List Relationship) :
    Frame st (applySolvers st rid rels) := by
  induction rels generalizing st with
  | nil => exact frame_refl st
  | cons rel rest ih =>
    rw [applySolvers]
    exact frame_trans
      (frame_updRail st rid
        (fun r => { r with new_millivolts := dvfs_solve_relationship st rel })
        (fun r => rfl))
      (ih _)

theorem find_map_upd (l : List Rail) (rid : Nat) (f : Rail → Rail)
    (h : ∀ r, (f r).reg_id = r.reg_id) :
    (l.map (fun r => if r.reg_id == rid then f r else r)).find?
        (fun r => r.reg_id == rid) =
      (l.find? (fun r => r.reg_id == rid)).map f := by
  induction l with
  | nil => rfl
  | cons a t ih =>
    by_cases ha : a.reg_id == rid
    · simp [List.find?, ha, h a]
    · simp only [List.map, List.find?]
      rw [if_neg (by simpa using ha)]
      simpa [ha] using ih

theorem getRail_updRail (st : St) (rid : Nat) (f : Rail → Rail)
    (h : ∀ r, (f r).reg_id = r.reg_id) :
    getRail (updRail st rid f) rid = (getRail st rid).map f :=
  find_map_upd st.rails rid f h

theorem find_map_upd_ne (l : List Rail) (rid rid' : Nat) (f : Rail → Rail)
    (h : ∀ r, (f r).reg_id = r.reg_id) (hne : rid' ≠ rid) :
    (l.map (fun r => if r.reg_id == rid then f r else r)).find?
        (fun r => r.reg_id == rid') =
      l.find? (fun r => r.reg_id == rid') := by
  induction l with
  | nil => rfl
  | cons a t ih =>
    simp only [List.map_cons]
    by_cases ha : a.reg_id == rid
    · have ha' : a.reg_id = rid := by simpa using ha
      have h1 : ((f a).reg_id == rid') = false := by
        rw [h a, ha']
        simp
        omega
      have h2 : (a.reg_id == rid') = false := by
        rw [ha']
        simp
        omega
      rw [if_pos ha]
      simp only [List.find?_cons, h1, h2]
      exact ih
    · rw [if_neg ha]
      rcases hb : (a.reg_id == rid') with _ | _
      · simp only [List.find?_cons, hb]
        exact ih
      · simp only [List.find?_cons, hb]

theorem getRail_updRail_ne (st : St) (rid rid' : Nat) (f : Rail → Rail)
    (h : ∀ r, (f r).reg_id = r.reg_id) (hne : rid' ≠ rid) :
    getRail (updRail st rid f) rid' = getRail st rid' :=
  find_map_upd_ne st.rails rid rid' f h hne

theorem find_core_of_core_eq (l l' : List Rail) (rid : Nat)
    (h : l'.map railCore = l.map railCore) :
    (l'.find? (fun r => r.reg_id == rid)).map railCore =
      (l.find? (fun r => r.reg_id == rid)).map railCore := by
  induction l generalizing l' with
  | nil =>
    have : l' = [] := by simpa using h
    simp [this]
  | cons a t ih =>
    cases l' with
    | nil => simp at h
    | cons b t' =>
      simp only [List.map, List.cons.injEq] at h
      obtain ⟨hb, ht⟩ := h
      have hid : b.reg_id = a.reg_id := congrArg Prod.fst hb
      by_cases ha : (a.reg_id == rid) = true
      · have hbeq : (b.reg_id == rid) = true := by rw [hid]; exact ha
        simp only [List.find?_cons, ha, hbeq, Option.map_some]
        exact congrArg some hb
      · have ha0 : (a.reg_id == rid) = false := by simpa using ha
        have hbne : (b.reg_id == rid) = false := by rw [hid]; exact ha0
        simp only [List.find?_cons, ha0, hbne]
        exact ih t' ht

/-- A frame between two states relates what `getRail` finds: same
existence, same identity/suspended/disabled of the found rail. -/
theorem frame_getRail_core {st st' : St} (h : Frame st st') (rid : Nat) :
    (getRail st' rid).map railCore = (getRail st rid).map railCore :=
  find_core_of_core_eq st.rails st'.rails rid h.2.2

set_option maxHeartbeats 2000000 in
/-- The whole resolve/ramp call tree preserves the frame: it never touches
the edge set, the clock entries, or any rail's identity, suspended or
disabled flag, whatever the solvers and the regulator do. -/
theorem resolve_frame : ∀ fuel : Nat,
    (∀ st rid, Frame st (dvfs_rail_update fuel st rid).2) ∧
    (∀ st rid mv steps ret0,
        Frame st (rail_update_loop fuel st rid mv steps ret0).2.1) ∧
    (∀ st rid mv, Frame st (dvfs_rail_set_voltage fuel st rid mv).2) ∧
    (∀ st rid mv jmp step offset rem,
        Frame st (sv_steps fuel st rid mv jmp step offset rem).2) ∧
    (∀ st ids, Frame st (propagate fuel st ids).2) := by
  intro fuel
  induction fuel with
  | zero =>
    refine ⟨?_, ?_, ?_, ?_, ?_⟩
    · intro st rid
      rw [dvfs_rail_update_zero]
      exact frame_refl st
    · intro st rid mv steps ret0
      rw [rail_update_loop_zero]
      exact frame_refl st
    · intro st rid mv
      rw [dvfs_rail_set_voltage_zero]
      exact frame_refl st
    · intro st rid mv jmp step offset rem
      rw [sv_steps_zero]
      exact frame_refl st
    · intro st ids
      cases ids with
      | nil =>
        rw [propagate_zero_nil]
        exact frame_refl st
      | cons rid rest =>
        rw [propagate_zero_cons]
        exact frame_refl st
  | succ fuel ih =>
    obtain ⟨ihU, ihL, ihS, ihV, ihP⟩ := ih
    refine ⟨?_, ?_, ?_, ?_, ?_⟩
    · intro st rid
      simp only [dvfs_rail_update_succ]
      repeat' split
      all_goals repeat
        first
          | exact frame_refl _
          | exact ihP _ _
          | exact ihV _ _ _ _ _ _ _
          | exact ihS _ _ _
          | exact ihL _ _ _ _ _
          | exact ihU _ _
          | exact frame_set_voltage_reg _ _ _
          | exact frame_applySolvers _ _ _
          | exact frame_updRail _ _ _ (fun r => dvfs_rail_stats_update_core _ _)
          | exact frame_updRail _ _ _ (fun r => rfl)
          | refine frame_trans ?_ (ihP _ _)
          | refine frame_trans ?_ (ihV _ _ _ _ _ _ _)
          | refine frame_trans ?_ (ihS _ _ _)
          | refine frame_trans ?_ (ihL _ _ _ _ _)
          | refine frame_trans ?_ (ihU _ _)
          | refine frame_trans ?_ (frame_set_voltage_reg _ _ _)
          | refine frame_trans ?_ (frame_applySolvers _ _ _)
          | refine frame_trans ?_
              (frame_updRail _ _ _ (fun r => dvfs_rail_stats_update_core _ _))
          | refine frame_trans ?_ (frame_updRail _ _ _ (fun r => rfl))
    · intro st rid mv steps ret0
      simp only [rail_update_loop_succ]
      repeat' split
      all_goals repeat
        first
          | exact frame_refl _
          | exact ihP _ _
          | exact ihV _ _ _ _ _ _ _
          | exact ihS _ _ _
          | exact ihL _ _ _ _ _
          | exact ihU _ _
          | exact frame_set_voltage_reg _ _ _
          | exact frame_applySolvers _ _ _
          | exact frame_updRail _ _ _ (fun r => dvfs_rail_stats_update_core _ _)
          | exact frame_updRail _ _ _ (fun r => rfl)
          | refine frame_trans ?_ (ihP _ _)
          | refine frame_trans ?_ (ihV _ _ _ _ _ _ _)
          | refine frame_trans ?_ (ihS _ _ _)
          | refine frame_trans ?_ (ihL _ _ _ _ _)
          | refine frame_trans ?_ (ihU _ _)
          | refine frame_trans ?_ (frame_set_voltage_reg _ _ _)
          | refine frame_trans ?_ (frame_applySolvers _ _ _)
          | refine frame_trans ?_
              (frame_updRail _ _ _ (fun r => dvfs_rail_stats_update_core _ _))
          | refine frame_trans ?_ (frame_updRail _ _ _ (fun r => rfl))
    · intro st rid mv
      simp only [dvfs_rail_set_voltage_succ]
      repeat' split
      all_goals repeat
        first
          | exact frame_refl _
          | exact ihP _ _
          | exact ihV _ _ _ _ _ _ _
          | exact ihS _ _ _
          | exact ihL _ _ _ _ _
          | exact ihU _ _
          | exact frame_set_voltage_reg _ _ _
          | exact frame_applySolvers _ _ _
          | exact frame_updRail _ _ _ (fun r => dvfs_rail_stats_update_core _ _)
          | exact frame_updRail _ _ _ (fun r => rfl)
          | refine frame_trans ?_ (ihP _ _)
          | refine frame_trans ?_ (ihV _ _ _ _ _ _ _)
          | refine frame_trans ?_ (ihS _ _ _)
          | refine frame_trans ?_ (ihL _ _ _ _ _)
          | refine frame_trans ?_ (ihU _ _)
          | refine frame_trans ?_ (frame_set_voltage_reg _ _ _)
          | refine frame_trans ?_ (frame_applySolvers _ _ _)
          | refine frame_trans ?_
              (frame_updRail _ _ _ (fun r => dvfs_rail_stats_update_core _ _))
          | refine frame_trans ?_ (frame_updRail _ _ _ (fun r => rfl))
    · intro st rid mv jmp step offset rem
      cases rem with
      | zero =>
        rw [sv_steps_succ_zero]
        exact frame_refl st
      | succ rem =>
        simp only [sv_steps_succ_succ]
        repeat' split
        all_goals repeat
          first
            | exact frame_refl _
            | exact ihP _ _
            | exact ihV _ _ _ _ _ _ _
            | exact ihS _ _ _
            | exact ihL _ _ _ _ _
            | exact ihU _ _
            | exact frame_set_voltage_reg _ _ _
            | exact frame_applySolvers _ _ _
            | exact frame_updRail _ _ _ (fun r => dvfs_rail_stats_update_core _ _)
            | exact frame_updRail _ _ _ (fun r => rfl)
            | refine frame_trans ?_ (ihP _ _)
            | refine frame_trans ?_ (ihV _ _ _ _ _ _ _)
            | refine frame_trans ?_ (ihS _ _ _)
            | refine frame_trans ?_ (ihL _ _ _ _ _)
            | refine frame_trans ?_ (ihU _ _)
            | refine frame_trans ?_ (frame_set_voltage_reg _ _ _)
            | refine frame_trans ?_ (frame_applySolvers _ _ _)
            | refine frame_trans ?_
                (frame_updRail _ _ _ (fun r => dvfs_rail_stats_update_core _ _))
            | refine frame_trans ?_ (frame_updRail _ _ _ (fun r => rfl))
    · intro st ids
      cases ids with
      | nil =>
        rw [propagate_succ_nil]
        exact frame_refl st
      | cons rid rest =>
        simp only [propagate_succ_cons]
        repeat' split
        all_goals repeat
          first
            | exact frame_refl _
            | exact ihP _ _
            | exact ihU _ _
            | refine frame_trans ?_ (ihP _ _)
            | refine frame_trans ?_ (ihU _ _)

/-- The retry loop of `dvfs_rail_update` executes its body at most
`steps + 1` times (the C loop is `for (; steps >= 0; steps--)`), whatever
the solvers, the regulator and the rest of the state do. -/
theorem rail_update_loop_count : ∀ (fuel : Nat) (st : St) (rid : Nat)
    (mv : Int) (steps : Nat) (ret0 : Int),
    (rail_update_loop fuel st rid mv steps ret0).2.2 ≤ steps + 1 := by
  intro fuel
  induction fuel with
  | zero =>
    intro st rid mv steps ret0
    rw [rail_update_loop_zero]
    exact Nat.zero_le _
  | succ fuel ih =>
    intro st rid mv steps ret0
    simp only [rail_update_loop_succ]
    repeat' split
    all_goals
      first
        | exact Nat.succ_le_succ (Nat.zero_le _)
        | exact Nat.succ_le_succ (ih _ _ _ _ _)

/-- Clearing the guard flag of a rail that exists across a frame-preserving
computation always leaves the looked-up rail's guard false. -/
theorem guard_cleared_of_frame (st X : St) (rid : Nat) (r : Rail)
    (hg : getRail st rid = some r) (hfr : Frame st X) :
    (getRail (updRail X rid (fun q => { q with resolving_to := false })) rid).map
        (fun q => q.resolving_to) = some false := by
  have hcore := frame_getRail_core hfr rid
  rw [hg] at hcore
  rw [getRail_updRail X rid (fun q => { q with resolving_to := false })
    (fun q => rfl)]
  cases hX : getRail X rid with
  | none =>
    rw [hX] at hcore
    simp at hcore
  | some q => simp [hX]

/-- Every exit path of the ramp engine leaves the recursion guard of the
ramped rail cleared (it was clear on entry; the engine sets it and clears
it again on both the normal and the error path). -/
theorem sv_clears_guard : ∀ (fuel : Nat) (st : St) (rid : Nat) (mv : Int)
    (r : Rail), getRail st rid = some r → r.resolving_to = false →
    (getRail (dvfs_rail_set_voltage fuel st rid mv).2 rid).map
        (fun q => q.resolving_to) = some false := by
  intro fuel st rid mv r hg hr
  cases fuel with
  | zero =>
    rw [dvfs_rail_set_voltage_zero]
    simp [hg, hr]
  | succ fuel =>
    simp only [dvfs_rail_set_voltage_succ]
    rw [hg]
    dsimp only
    by_cases hreg : (!r.reg) = true
    · rw [if_pos hreg]
      simp [hg, hr]
    · rw [if_neg hreg]
      by_cases hdfll : r.dfll_mode = true
      · rw [if_pos hdfll]
        dsimp only
        rw [getRail_updRail st rid
          (fun q => dvfs_rail_stats_update
            { q with millivolts := mv, new_millivolts := mv } mv)
          (fun q => dvfs_rail_stats_update_reg_id _ _), hg]
        simp [dvfs_rail_stats_update_resolving_to, hr]
      · rw [if_neg hdfll]
        by_cases hdis : r.disabled = true
        · rw [if_pos hdis]
          simp [hg, hr]
        · rw [if_neg hdis]
          dsimp only
          exact guard_cleared_of_frame st _ rid r hg
            (frame_trans
              (frame_updRail st rid (fun q => { q with resolving_to := true })
                (fun q => rfl))
              ((resolve_frame fuel).2.2.2.1 _ _ _ _ _ _ _))

/-- One pass of the suspend scan flips a rail's suspended flag only when
that rail's eligibility predicate (every incoming source suspended,
disabled or solved-at-nominal) held in the pre-scan state. -/
theorem suspend_one_scan_only_eligible :
    ∀ (rids : List Nat) (fuel : Nat) (st : St) (rid : Nat) (r r' : Rail),
      (tegra_dvfs_suspend_one_scan fuel st rids).1 = 0 →
      getRail st rid = some r → r.suspended = false →
      getRail (tegra_dvfs_suspend_one_scan fuel st rids).2 rid = some r' →
      r'.suspended = true →
      tegra_dvfs_from_rails_suspended_or_solved st rid = true := by
  intro rids
  induction rids with
  | nil =>
    intro fuel st rid r r' hret hg hsus hg' hsus'
    simp only [tegra_dvfs_suspend_one_scan] at hret
    norm_num [EINVAL] at hret
  | cons rid0 rest ih =>
    intro fuel st rid r r' hret hg hsus hg' hsus'
    cases h0 : getRail st rid0 with
    | none =>
      rw [show tegra_dvfs_suspend_one_scan fuel st (rid0 :: rest) =
            tegra_dvfs_suspend_one_scan fuel st rest by
          simp only [tegra_dvfs_suspend_one_scan, h0]] at hret hg'
      exact ih fuel st rid r r' hret hg hsus hg' hsus'
    | some rail0 =>
      by_cases hskip : (rail0.suspended || rail0.disabled ||
          !tegra_dvfs_from_rails_suspended_or_solved st rid0) = true
      · rw [show tegra_dvfs_suspend_one_scan fuel st (rid0 :: rest) =
              tegra_dvfs_suspend_one_scan fuel st rest by
            simp only [tegra_dvfs_suspend_one_scan, h0]
            rw [if_pos hskip]] at hret hg'
        exact ih fuel st rid r r' hret hg hsus hg' hsus'
      · have hc : tegra_dvfs_from_rails_suspended_or_solved st rid0 = true := by
          cases hcc : tegra_dvfs_from_rails_suspended_or_solved st rid0
          · exact absurd (by simp [hcc]) hskip
          · rfl
        simp only [tegra_dvfs_suspend_one_scan, h0] at hret hg'
        rw [if_neg hskip] at hret hg'
        by_cases hmv : dvfs_rail_apply_limits rail0
            (tegra_dvfs_rail_get_suspend_level rail0) ≥ rail0.millivolts
        · rw [if_pos hmv] at hret hg'
          by_cases hsv1 : (dvfs_rail_set_voltage fuel st rid0
              (dvfs_rail_apply_limits rail0
                (tegra_dvfs_rail_get_suspend_level rail0))).1 ≠ 0
          · rw [if_pos hsv1] at hret
            exact absurd hret hsv1
          · rw [if_neg hsv1] at hg'
            dsimp only at hg'
            by_cases hr : rid = rid0
            · subst hr
              exact hc
            · rw [getRail_updRail_ne _ rid0 rid
                (fun q => { q with suspended := true }) (fun q => rfl) hr] at hg'
              have hfr := (resolve_frame fuel).2.2.1 st rid0
                (dvfs_rail_apply_limits rail0
                  (tegra_dvfs_rail_get_suspend_level rail0))
              have hcore := frame_getRail_core hfr rid
              rw [hg, hg'] at hcore
              have hrc : railCore r' = railCore r := by simpa using hcore
              have hse : r'.suspended = r.suspended :=
                congrArg (fun p => p.2.1) hrc
              rw [hsus', hsus] at hse
              exact absurd hse (by decide)
        · rw [if_neg hmv] at hret hg'
          rw [if_neg (by norm_num)] at hg'
          try dsimp only at hg'
          by_cases hr : rid = rid0
          · subst hr
            exact hc
          · rw [getRail_updRail_ne _ rid0 rid
              (fun q => { q with suspended := true }) (fun q => rfl) hr] at hg'
            try dsimp only at hg'
            rw [hg] at hg'
            have hrr : r = r' := by injection hg'
            rw [← hrr, hsus] at hsus'
            exact absurd hsus' (by decide)

/-! The claim theorems.  Each theorem carries its claim id (C1..C10) and a
natural-language statement of the property settled. -/

/-- C1 (code bug): the claim says that for a rail with no incoming edges
and no thermal tables, resolve after a clock demand change ramps to exactly
clamp(max clock demand, rail min, rail max).  In the source the clamp is
the statement `clamp_val(millivolts, min_mv, max_mv);`, a pure expression
whose result is discarded, so no clamping happens: on the C1 scenario
(demand 700 mV, minimum 800 mV, current 900 mV) `dvfs_rail_apply_limits`
returns 700 where the claimed clamp is 800, and resolve ramps the rail to
700 mV, below its static minimum. -/
theorem C1_code_eval :
    dvfs_rail_apply_limits (baseRail 0 900) 700 = 700 ∧
    dvfs_rail_apply_limits_spec (baseRail 0 900) 700 = 800 ∧
    (dvfs_rail_update 10 stC1 0).1 = 0 ∧
    (getRail (dvfs_rail_update 10 stC1 0).2 0).map (fun q => q.millivolts) =
      some 700 ∧
    (baseRail 0 900).min_millivolts = 800 := by
  refine ⟨by decide, by decide, by decide, by decide, by decide⟩

/-- C2 (code bug): the claim says a raised thermal floor (index 0 to 1,
floor 950 mV) clamps the next resolve target up to 950 mV although the
clock demand stays 850 mV.  Because the source discards the result of
`clamp_val`, the floor read from the table never reaches the returned
demand: after `tegra_dvfs_core_update_thermal_index` moves the floor index
to 1, the rail stays at 850 mV, and `dvfs_rail_apply_limits` returns
850 where the specification's clamp gives 950. -/
theorem C2_code_eval :
    (tegra_dvfs_core_update_thermal_index 10 stC2 (some 0) .floor 1).1 = 0 ∧
    (getRail (tegra_dvfs_core_update_thermal_index 10 stC2 (some 0) .floor 1).2 0).map
        (fun q => (q.millivolts, q.therm_floor_idx)) = some (850, 1) ∧
    dvfs_rail_apply_limits { railC2 with therm_floor_idx := 1 } 850 = 850 ∧
    dvfs_rail_apply_limits_spec { railC2 with therm_floor_idx := 1 } 850 = 950 := by
  refine ⟨by decide, by decide, by decide, by decide⟩

/-- C3 (confirmed): ramping a rail with a bound regulator from 800 mV to
1000 mV with step-up 50 mV and no outgoing edges performs exactly the four
regulator writes 850, 900, 950, 1000 in that order (monotonically
non-decreasing, each moving toward the target by one step), returns
success, and leaves the current voltage at the target. -/
theorem C3_exact_steps :
    (dvfs_rail_set_voltage 10 stC3 0 1000).1 = 0 ∧
    (dvfs_rail_set_voltage 10 stC3 0 1000).2.trace =
      [⟨0, 850, true⟩, ⟨0, 900, true⟩, ⟨0, 950, true⟩, ⟨0, 1000, true⟩] ∧
    (getRail (dvfs_rail_set_voltage 10 stC3 0 1000).2 0).map
        (fun q => q.millivolts) = some 1000 ∧
    List.Chain' (fun a b => a ≤ b)
      ((dvfs_rail_set_voltage 10 stC3 0 1000).2.trace.map (fun w => w.mv)) := by
  have ht : (dvfs_rail_set_voltage 10 stC3 0 1000).2.trace =
      [⟨0, 850, true⟩, ⟨0, 900, true⟩, ⟨0, 950, true⟩, ⟨0, 1000, true⟩] := by
    decide
  refine ⟨by decide, ht, by decide, ?_⟩
  rw [ht]
  norm_num [List.chain'_cons]

/-- C4 (confirmed): the constraint-retry loop of resolve executes its body
at most steps + 1 times where steps is the counter it is entered with
(`dvfs_rail_update` enters it with DIV_ROUND_UP(|demand - current|, step)),
for every state, solver set and regulator behaviour; and a rail whose
recursion guard (`resolving_to`) is set returns from resolve immediately
with the state untouched, which is what breaks circular-edge recursion. -/
theorem C4_resolve_bounded :
    (∀ (fuel : Nat) (st : St) (rid : Nat) (mv : Int) (steps : Nat) (ret0 : Int),
        (rail_update_loop fuel st rid mv steps ret0).2.2 ≤ steps + 1) ∧
    (∀ (fuel : Nat) (st : St) (rid : Nat) (r : Rail),
        getRail st rid = some r → r.resolving_to = true →
        dvfs_rail_update (fuel + 1) st rid = (0, st)) := by
  refine ⟨rail_update_loop_count, ?_⟩
  intro fuel st rid r hg hres
  rw [dvfs_rail_update_succ, hg]
  simp [hres]

/-- C5 (code bug): the claim says an alternate-table swap request applies
the swap, re-derives the demand and re-resolves the rail, reverting on
failure.  The source guard is `if (!d && d->alt_freqs)`: with a valid
clock the conjunction is false and the whole swap block is dead, so the
call returns -ENOENT and changes nothing even though the clock has an
alternate table; with an unknown clock, `!d` holds and `d->alt_freqs`
dereferences NULL (the embedded result `none`). -/
theorem C5_code_eval :
    tegra_dvfs_use_alt_freqs_on_clk 10 stC5 10 true = some (-ENOENT, stC5) ∧
    clkC5.alt_freqs = some [150, 250, 350] ∧
    tegra_dvfs_use_alt_freqs_on_clk 10 stC5 99 true = none := by
  exact ⟨rfl, rfl, rfl⟩

/-- C6 (confirmed): one suspend scan flips a rail's suspended flag only
when every incoming-edge source was already suspended, disabled or
solved-at-nominal (first conjunct, for every state); on the two-rail chain
where rail 1 depends on rail 0 and rail 1 is listed first, rail 0's
suspend ramp is written before rail 1's and both end suspended (second
conjunct); and on the cyclic scenario, suspend_all reports failure and the
automatic resume rollback returns every rail to its pre-suspend resolved
voltage (third conjunct). -/
theorem C6_suspend_order_and_rollback :
    (∀ (fuel : Nat) (st : St) (rid : Nat) (r r' : Rail),
        (tegra_dvfs_suspend_one fuel st).1 = 0 →
        getRail st rid = some r → r.suspended = false →
        getRail (tegra_dvfs_suspend_one fuel st).2 rid = some r' →
        r'.suspended = true →
        tegra_dvfs_from_rails_suspended_or_solved st rid = true) ∧
    ((tegra_dvfs_suspend 40 stC6chain).1 = 0 ∧
     (tegra_dvfs_suspend 40 stC6chain).2.trace.map (fun w => w.rid) = [0, 1] ∧
     (tegra_dvfs_suspend 40 stC6chain).2.rails.all (fun r => r.suspended) = true) ∧
    ((tegra_dvfs_suspend 40 stC6).1 ≠ 0 ∧
     (tegra_dvfs_suspend 40 stC6).2.rails.map (fun r => (r.reg_id, r.millivolts)) =
       stC6.rails.map (fun r => (r.reg_id, r.millivolts))) := by
  refine ⟨?_, by decide, by decide⟩
  intro fuel st rid r r' h1 h2 h3 h4 h5
  simp only [tegra_dvfs_suspend_one] at h1 h4
  exact suspend_one_scan_only_eligible (st.rails.map (fun q => q.reg_id))
    fuel st rid r r' h1 h2 h3 h4 h5

/-- C7 (corrected): for a continuous-control-mode (dfll) rail WITH a bound
regulator, ramp sets the current voltage to the target in one direct
update, records stats, performs no regulator write and no propagation, and
returns success, whatever the distance.  (As stated over every rail the
claim fails: without a bound regulator the ramp engine returns -EINVAL
before the continuous-control branch, see the counterexample.) -/
theorem C7_dfll_direct (fuel : Nat) (st : St) (rid : Nat) (r : Rail)
    (mv : Int) (hg : getRail st rid = some r) (hreg : r.reg = true)
    (hdfll : r.dfll_mode = true) :
    dvfs_rail_set_voltage (fuel + 1) st rid mv =
      (0, updRail st rid (fun q =>
        dvfs_rail_stats_update
          { q with millivolts := mv, new_millivolts := mv } mv)) ∧
    (dvfs_rail_set_voltage (fuel + 1) st rid mv).2.trace = st.trace ∧
    (getRail (dvfs_rail_set_voltage (fuel + 1) st rid mv).2 rid).map
        (fun q => q.millivolts) = some mv ∧
    (getRail (dvfs_rail_set_voltage (fuel + 1) st rid mv).2 rid).map
        (fun q => q.stats.updates) = some (r.stats.updates ++ [mv]) := by
  have heq : dvfs_rail_set_voltage (fuel + 1) st rid mv =
      (0, updRail st rid (fun q =>
        dvfs_rail_stats_update
          { q with millivolts := mv, new_millivolts := mv } mv)) := by
    rw [dvfs_rail_set_voltage_succ, hg]
    simp [hreg, hdfll]
  refine ⟨heq, ?_, ?_, ?_⟩
  · rw [heq]
    rfl
  · rw [heq]
    dsimp only
    rw [getRail_updRail st rid
      (fun q => dvfs_rail_stats_update
        { q with millivolts := mv, new_millivolts := mv } mv)
      (fun q => dvfs_rail_stats_update_reg_id _ _), hg]
    simp [dvfs_rail_stats_update_millivolts]
  · rw [heq]
    dsimp only
    rw [getRail_updRail st rid
      (fun q => dvfs_rail_stats_update
        { q with millivolts := mv, new_millivolts := mv } mv)
      (fun q => dvfs_rail_stats_update_reg_id _ _), hg]
    simp [dvfs_rail_stats_update_updates]

/-- C7 witness: the theorem applied to the concrete dfll rail of `stC7`,
ramped from 800 mV to 1000 mV. -/
theorem C7_dfll_direct_witness :
    dvfs_rail_set_voltage 10 stC7 0 1000 =
      (0, updRail stC7 0 (fun q =>
        dvfs_rail_stats_update
          { q with millivolts := 1000, new_millivolts := 1000 } 1000)) ∧
    (dvfs_rail_set_voltage 10 stC7 0 1000).2.trace = stC7.trace ∧
    (getRail (dvfs_rail_set_voltage 10 stC7 0 1000).2 0).map
        (fun q => q.millivolts) = some 1000 ∧
    (getRail (dvfs_rail_set_voltage 10 stC7 0 1000).2 0).map
        (fun q => q.stats.updates) =
      some (({ baseRail 0 800 with dfll_mode := true } : Rail).stats.updates ++
        [1000]) :=
  C7_dfll_direct 9 stC7 0 { baseRail 0 800 with dfll_mode := true } 1000
    rfl rfl rfl

/-- C7 counterexample: a continuous-control-mode rail with no bound
regulator and a target different from the current voltage: the ramp
returns -EINVAL and does not move the voltage, refuting the claim as
stated over every rail in continuous-control-mode. -/
theorem C7_no_regulator_counterexample :
    ({ baseRail 0 800 with dfll_mode := true, reg := false } : Rail).dfll_mode
        = true ∧
    (dvfs_rail_set_voltage 10 stC7no 0 900).1 = -EINVAL ∧
    (getRail (dvfs_rail_set_voltage 10 stC7no 0 900).2 0).map
        (fun q => q.millivolts) = some 800 := by
  refine ⟨by decide, by decide, by decide⟩

/-- C8 (confirmed): on the scenario whose regulator rejects writes at
950 mV, the stepped ramp 800 to 1000 mV aborts at the third step with
-EIO_errno, the trace shows the failed write attempted and nothing after it, the
current voltage equals the last successfully written value 900 mV, and the
recursion guard is cleared (first conjunct); and on every state whose
ramped rail starts with a clear guard, every exit path of
dvfs_rail_set_voltage leaves that rail's guard cleared (second conjunct). -/
theorem C8_write_failure :
    ((dvfs_rail_set_voltage 10 stC8 0 1000).1 = -EIO_errno ∧
     (dvfs_rail_set_voltage 10 stC8 0 1000).2.trace =
       [⟨0, 850, true⟩, ⟨0, 900, true⟩, ⟨0, 950, false⟩] ∧
     (getRail (dvfs_rail_set_voltage 10 stC8 0 1000).2 0).map
         (fun q => (q.millivolts, q.resolving_to)) = some (900, false)) ∧
    (∀ (fuel : Nat) (st : St) (rid : Nat) (mv : Int) (r : Rail),
        getRail st rid = some r → r.resolving_to = false →
        (getRail (dvfs_rail_set_voltage fuel st rid mv).2 rid).map
            (fun q => q.resolving_to) = some false) := by
  refine ⟨⟨by decide, by decide, by decide⟩, ?_⟩
  intro fuel st rid mv r hg hr
  exact sv_clears_guard fuel st rid mv r hg hr

/-- C9 (confirmed): for every clock with a frequency table and every rate
strictly above the table's last entry, __tegra_dvfs_set_rate fails with
-EINVAL and returns the state unchanged: no clock rate, no clock demand
and no rail voltage moves. -/
theorem C9_rate_too_high (fuel : Nat) (st : St) (clkId : Nat) (d : Dvfs)
    (rate : Nat) (fs : List Nat)
    (hd : tegra_clk_to_dvfs st clkId = some d)
    (hfs : dvfs_get_freqs d = some fs)
    (hrate : rate > fs.getD (d.num_freqs - 1) 0) :
    __tegra_dvfs_set_rate fuel st clkId rate = (-EINVAL, st) := by
  unfold __tegra_dvfs_set_rate
  rw [hd]
  dsimp only
  rw [hfs, show dvfs_get_millivolts d rate = some d.millivolts from rfl]
  dsimp only
  simp only [tegra_dvfs_is_dfll_range_entry]
  have h0 : (if (false = true) then d.use_dfll_rate_min else rate) = rate :=
    if_neg (by decide)
  simp only [h0]
  rw [if_pos hrate]

/-- C9 witness: on the `stC9` scenario, requesting rate 500 on the clock
whose table ends at 300 fails with -EINVAL and leaves the state as it
was. -/
theorem C9_rate_too_high_witness :
    __tegra_dvfs_set_rate 10 stC9 10 500 = (-EINVAL, stC9) :=
  C9_rate_too_high 10 stC9 10 (baseClock 10 0 850) 500 [100, 200, 300]
    rfl rfl (by decide)

/-- C10 (confirmed): when every clock demand on a rail is zero, the rail
permits jump-to-zero and is not under in-band power management, resolve
hands target 0 straight to the retry loop without calling
dvfs_rail_apply_limits (first conjunct, for every such state); on the
concrete scenario with static minimum 800 mV and an active 900 mV thermal
floor, resolve succeeds and the rail ends commanded to 0 mV, below both
(second conjunct). -/
theorem C10_zero_demand :
    (∀ (fuel : Nat) (st : St) (rid : Nat) (r : Rail),
        getRail st rid = some r → r.disabled = false → r.suspended = false →
        r.reg = true → r.resolving_to = false → railClockDemand st rid = 0 →
        r.in_band_pm = false → r.jmp_to_zero = true →
        dvfs_rail_update (fuel + 1) st rid =
          ((rail_update_loop fuel st rid 0
              ((DIV_ROUND_UP (cAbs (0 - r.millivolts)) r.step).toNat) 0).1,
           (rail_update_loop fuel st rid 0
              ((DIV_ROUND_UP (cAbs (0 - r.millivolts)) r.step).toNat) 0).2.1)) ∧
    ((dvfs_rail_update 10 stC10 0).1 = 0 ∧
     (getRail (dvfs_rail_update 10 stC10 0).2 0).map (fun q => q.millivolts) =
       some 0 ∧
     railC10.min_millivolts = 800 ∧
     railC10.therm_floors = some [⟨50, 900⟩] ∧ railC10.therm_floor_idx = 0) := by
  refine ⟨?_, by decide⟩
  intro fuel st rid r hg h1 h2 h3 h4 h5 h6 h7
  rw [dvfs_rail_update_succ, hg]
  simp [h1, h2, h3, h4, h5, h6, h7]

end TegraDvfs
